import Mathlib

/-!
Verification of the anime-opener orchestration server and client.

The server (an Express app) exposes POST /api/generate, which chains four
remote generation calls (image, lyrics, music, video) and returns an
immediate partial result, and GET /api/status/:taskId, which re-queries the
provider and updates an in-memory task registry.  The client drives a
four-step progress indicator over the same endpoints.

JavaScript values flowing through the handlers are modelled by the
inductive type JVal; property access, array indexing, truthiness and the
logical-or fallback operator are modelled by getField, getIndex, truthy and
jsOr.  Remote calls are modelled by their outcomes: an Except value that is
an error when the underlying HTTP call throws, and otherwise carries the
parsed response body.
-/

namespace AnimeOpener

/-- Model of a JavaScript (JSON-like) runtime value.  The constructor null
also stands for undefined, which behaves identically in every expression the
handlers evaluate (truthiness, property access through optional chaining,
and the logical-or fallback). -/
inductive JVal where
  | null : JVal
  | bool (b : Bool) : JVal
  | num (n : Int) : JVal
  | str (s : String) : JVal
  | arr (elems : List JVal) : JVal
  | obj (fields : List (String × JVal)) : JVal

/-- JavaScript truthiness of a value. -/
def truthy : JVal → Bool
  | .null => false
  | .bool b => b
  | .num n => n != 0
  | .str s => !s.isEmpty
  | .arr _ => true
  | .obj _ => true

/-- First binding of a key in an object field list. -/
def lookupField (k : String) : List (String × JVal) → Option JVal
  | [] => none
  | (k2, v) :: rest => if k2 = k then some v else lookupField k rest

/-- Optional-chained property access v?.k: null on non-objects and missing
keys, the stored value otherwise. -/
def getField (v : JVal) (k : String) : JVal :=
  match v with
  | .obj fields => (lookupField k fields).getD .null
  | _ => .null

/-- Optional-chained array indexing v?.[i]. -/
def getIndex (v : JVal) (i : Nat) : JVal :=
  match v with
  | .arr elems => elems.getD i .null
  | _ => .null

/-- The JavaScript expression a || b: a when a is truthy, else b. -/
def jsOr (a b : JVal) : JVal :=
  if truthy a then a else b

/-- Strict equality of a value against a string literal (v === "s"). -/
def jStrEq (v : JVal) (s : String) : Bool :=
  match v with
  | .str t => t == s
  | _ => false

/-- Whether the value is null (or undefined). -/
def isNull : JVal → Bool
  | .null => true
  | _ => false

/-- The hard-coded fallback song text returned by getDefaultLyrics in the
server.  The theme parameter is accepted, as in the source, but the template
does not use it. -/
def getDefaultLyrics (theme : String) : String :=
  "[Intro]\n(Oh~)\nThis is our story now\nLet\x27s begin tonight\n\n[Verse 1]\nIn the darkness we stand together\nForever bound by destiny\nThe stars guide our way tonight\nAs we chase our dreams\n\n[Pre-Chorus]\nFeel the fire in our hearts\nNothing can tear us apart\n\n[Chorus]\nWe are unstoppable\nTogether we shine so bright\nWith the power of our souls\nWe\x27ll keep fighting through the night\n\n[Verse 2]\nMemories fade but we\x27ll remember\nEvery moment that we\x27ve shared\nThe journey continues on\nWith hope we will persevere\n\n[Bridge]\n(One more time)\nWe rise again\n(One more time)\nUntil the end\n\n[Chorus]\nWe are unstoppable\nTogether we shine so bright\nWith the power of our souls\nWe\x27ll keep fighting through the night\n\n[Outro]\n(This is our story...)\nOur story begins now..."

/-- Result of generateLyrics(theme) as a function of the outcome r of the
lyrics_generation call.  The source wraps the call in try/catch: on a thrown
error it returns getDefaultLyrics(theme); on a response it evaluates
response.lyrics || getDefaultLyrics(theme).  A null response makes the plain
property access response.lyrics throw inside the try, which the catch turns
into the fallback as well. -/
def generateLyricsResult (theme : String) (r : Except Unit JVal) : JVal :=
  match r with
  | .error _ => .str (getDefaultLyrics theme)
  | .ok v =>
    if isNull v then .str (getDefaultLyrics theme)
    else jsOr (getField v "lyrics") (.str (getDefaultLyrics theme))

/-- URL extracted from a successful image status response:
statusResult?.image?.image_url || statusResult?.data?.image_urls?.[0]. -/
def pollSuccessUrl (v : JVal) : JVal :=
  jsOr (getField (getField v "image") "image_url")
       (getIndex (getField (getField v "data") "image_urls") 0)

/-- Whether the i-th image status query reports success.  A thrown query is
caught and does not report success; the check itself is optional-chained
(statusResult?.status === "success"). -/
def pollReportsSuccess (polls : Nat → Except Unit JVal) (i : Nat) : Bool :=
  match polls i with
  | .error _ => false
  | .ok v => jStrEq (getField v "status") "success"

/-- The bounded polling loop of POST /api/generate over image status
queries: starting at query index i with the given fuel (5 at the top-level
call), it stops at the first query that reports success, taking the URL from
that response, and otherwise runs out of fuel leaving the URL null.  The
second component counts the status queries issued. -/
def imagePollAux (polls : Nat → Except Unit JVal) : Nat → Nat → JVal × Nat
  | _, 0 => (.null, 0)
  | i, fuel + 1 =>
    match polls i with
    | .error _ =>
      let r := imagePollAux polls (i + 1) fuel
      (r.1, r.2 + 1)
    | .ok v =>
      if jStrEq (getField v "status") "success" then (pollSuccessUrl v, 1)
      else
        let r := imagePollAux polls (i + 1) fuel
        (r.1, r.2 + 1)

/-- The polling loop as run by the handler: at most 5 iterations. -/
def imagePoll (polls : Nat → Except Unit JVal) : JVal × Nat :=
  imagePollAux polls 0 5

/-- Timestamps, in milliseconds after entering the polling loop, at which
the n status queries are issued: every iteration first awaits a fixed
2000 ms setTimeout and then issues its query. -/
def queryTimes (n : Nat) : List Nat :=
  (List.range n).map fun i => 2000 * (i + 1)

/-- Fallback image URL taken from the initial image_generation response:
imageResult?.data?.image_urls?.[0] || imageResult?.image?.image_url. -/
def initialImageUrl (iv : JVal) : JVal :=
  jsOr (getIndex (getField (getField iv "data") "image_urls") 0)
       (getField (getField iv "image") "image_url")

/-- Task id of the initial image_generation response:
imageResult?.id || imageResult?.task_id. -/
def imageTaskIdOf (iv : JVal) : JVal :=
  jsOr (getField iv "id") (getField iv "task_id")

/-- The image URL POST /api/generate ends up with: when the initial response
carries a task id the polling loop runs and a truthy URL from it wins;
otherwise (no task id, loop exhausted, or loop URL falsy) the handler falls
back to any URL present in the initial response. -/
def computeImageUrl (polls : Nat → Except Unit JVal) (iv : JVal) : JVal :=
  let loopUrl := if truthy (imageTaskIdOf iv) then (imagePoll polls).1 else JVal.null
  if truthy loopUrl then loopUrl else initialImageUrl iv

/-- Status values a stored GenerationTask can carry.  The server only ever
assigns the strings "processing", "success" and "failed". -/
inductive TaskStatus where
  | processing : TaskStatus
  | success : TaskStatus
  | failed : TaskStatus
deriving DecidableEq

/-- The record stored in the in-memory task map.  The videoUrl field is
absent when the task is created and set by the status endpoint on success. -/
structure GenerationTask where
  theme : String
  imageUrl : JVal
  musicUrl : JVal
  lyrics : JVal
  status : TaskStatus
  createdAt : Nat
  videoUrl : Option JVal := none

/-- mergeVideoAndAudio(videoUrl, audioUrl): the stub returns the video URL
unchanged. -/
def mergeVideoAndAudio (videoUrl audioUrl : JVal) : JVal :=
  videoUrl

/-- Outcomes of one remote call from POST /api/generate: the four generation
requests and the image status queries.  An error value models the underlying
HTTP call throwing; an ok value carries the parsed response body. -/
structure GenInput where
  apiKeyPresent : Bool
  theme : String
  imageResult : Except Unit JVal
  imagePolls : Nat → Except Unit JVal
  lyricsResult : Except Unit JVal
  musicResult : Except Unit JVal
  videoResult : Except Unit JVal
  now : Nat

/-- The JSON body POST /api/generate sends on the 200 path. -/
structure GenBody where
  status : String
  taskId : JVal
  musicUrl : JVal
  imageUrl : JVal
  lyrics : JVal

/-- Outcome of POST /api/generate: a 500 with an error message, or a 200
body together with the registry entry inserted for this request (none when
no task id was obtained). -/
inductive GenResult where
  | serverError (msg : String) : GenResult
  | ok (registered : Option (JVal × GenerationTask)) (body : GenBody) : GenResult

/-- Task id extracted from the video_generation response:
videoResult?.task_id || videoResult?.task?.task_id || videoResult. -/
def extractVideoTaskId (vv : JVal) : JVal :=
  jsOr (getField vv "task_id")
       (jsOr (getField (getField vv "task") "task_id") vv)

/-- Music URL extracted from the music_generation response:
musicResult?.data?.audio || musicResult?.audio_file ||
musicResult?.audio?.file_url || musicResult?.file_url ||
musicResult?.url || musicResult. -/
def extractMusicUrl (mv : JVal) : JVal :=
  jsOr (getField (getField mv "data") "audio")
       (jsOr (getField mv "audio_file")
             (jsOr (getField (getField mv "audio") "file_url")
                   (jsOr (getField mv "file_url")
                         (jsOr (getField mv "url") mv))))

/-- The sequential body of POST /api/generate up to the final response:
missing API key and a thrown image, music or (when attempted) video call
abort with a 500; the lyrics call never aborts.  On the non-throwing path it
yields (taskId, imageUrl, musicUrl, lyrics). -/
def generateCore (inp : GenInput) : Except String (JVal × JVal × JVal × JVal) :=
  if inp.apiKeyPresent = false then
    .error "MiniMax API key not configured. Please set MINIMAX_API_KEY environment variable."
  else
    match inp.imageResult with
    | .error _ => .error "image generation failed"
    | .ok iv =>
      match inp.musicResult with
      | .error _ => .error "music generation failed"
      | .ok mv =>
        if truthy (computeImageUrl inp.imagePolls iv) then
          match inp.videoResult with
          | .error _ => .error "video generation failed"
          | .ok vv =>
            .ok (extractVideoTaskId vv, computeImageUrl inp.imagePolls iv,
                 extractMusicUrl mv, generateLyricsResult inp.theme inp.lyricsResult)
        else
          .ok (JVal.null, computeImageUrl inp.imagePolls iv,
               extractMusicUrl mv, generateLyricsResult inp.theme inp.lyricsResult)

/-- Final step of POST /api/generate: register the task when a truthy task
id was obtained and build the 200 body, whose status is "processing" exactly
on a truthy task id and "completed" otherwise. -/
def mkGenOk (inp : GenInput) (taskId imageUrl musicUrl lyrics : JVal) : GenResult :=
  .ok (if truthy taskId then
        some (taskId,
          { theme := inp.theme, imageUrl := imageUrl, musicUrl := musicUrl,
            lyrics := lyrics, status := TaskStatus.processing,
            createdAt := inp.now : GenerationTask })
       else none)
    { status := if truthy taskId then "processing" else "completed",
      taskId := taskId, musicUrl := musicUrl, imageUrl := imageUrl,
      lyrics := lyrics }

/-- POST /api/generate as a whole. -/
def generateHandler (inp : GenInput) : GenResult :=
  match generateCore inp with
  | .error msg => .serverError msg
  | .ok (taskId, imageUrl, musicUrl, lyrics) =>
    mkGenOk inp taskId imageUrl musicUrl lyrics

/-- Responses of GET /api/status/:taskId. -/
inductive StatusResponse where
  | notFound (error : String) : StatusResponse
  | okSuccess (videoUrl : JVal) : StatusResponse
  | okFailed (error : String) : StatusResponse
  | okProcessing : StatusResponse
  | serverError (error : String) : StatusResponse

/-- GET /api/status/:taskId for one task id, given the registry entry for
that id and the outcome of the upstream video status query.  Returns the
entry after the request, the HTTP response, and whether the upstream
provider was queried at all (the 404 path returns before the query).  A
thrown query, and a null response body (whose plain property access
statusResult.status throws), are caught and produce a 500 without touching
the task. -/
def statusHandler (found : Option GenerationTask) (upstream : Except Unit JVal) :
    Option GenerationTask × StatusResponse × Bool :=
  match found with
  | none => (none, .notFound "Task not found", false)
  | some task =>
    match upstream with
    | .error _ => (some task, .serverError "Failed to query status", true)
    | .ok sv =>
      if isNull sv then
        (some task, .serverError "Cannot read properties of null", true)
      else if jStrEq (getField sv "status") "success" then
        let videoUrl := getField (getField sv "video") "video_url"
        let finalVideoUrl := mergeVideoAndAudio videoUrl task.musicUrl
        (some { task with status := TaskStatus.success, videoUrl := some finalVideoUrl },
         .okSuccess finalVideoUrl, true)
      else if jStrEq (getField sv "status") "failed" then
        (some { task with status := TaskStatus.failed },
         .okFailed "Video generation failed", true)
      else
        (some task, .okProcessing, true)

/-- The stored task after one poll of the status endpoint. -/
def statusStep (t : GenerationTask) (u : Except Unit JVal) : GenerationTask :=
  ((statusHandler (some t) u).1).getD t

/-- Stored statuses after each poll of a sequence. -/
def statusTrace (t : GenerationTask) : List (Except Unit JVal) → List TaskStatus
  | [] => []
  | u :: rest =>
    let t2 := statusStep t u
    t2.status :: statusTrace t2 rest

/-- Whether an upstream query outcome drives the success branch of the
status endpoint. -/
def upSucc : Except Unit JVal → Bool
  | .error _ => false
  | .ok v => !isNull v && jStrEq (getField v "status") "success"

/-- Whether an upstream query outcome drives the failed branch of the
status endpoint. -/
def upFail : Except Unit JVal → Bool
  | .error _ => false
  | .ok v => !isNull v && !jStrEq (getField v "status") "success"
             && jStrEq (getField v "status") "failed"

/-- Terminal consistency of a sequence of upstream status outcomes: after a
success report no later outcome reports failed, and after a failed report no
later outcome reports success. -/
def upConsistent : List (Except Unit JVal) → Bool
  | [] => true
  | u :: rest =>
    (!upSucc u || rest.all fun v => !upFail v)
    && (!upFail u || rest.all fun v => !upSucc v)
    && upConsistent rest

/-- Transition allowed by the spec invariant: the status is unchanged or
moves out of processing. -/
def okTrans (a b : TaskStatus) : Prop :=
  a ≠ b → a = TaskStatus.processing

/-- Client-side status of one progress step. -/
inductive StepStatus where
  | pending : StepStatus
  | processing : StepStatus
  | completed : StepStatus
  | error : StepStatus
deriving DecidableEq

/-- One entry of the progress state in the client component. -/
structure GenerationStep where
  id : Nat
  label : String
  status : StepStatus
deriving DecidableEq

/-- updateStep(stepId, status) applied through the functional setProgress
updater: it maps over the current progress array. -/
def updateStep (prog : List GenerationStep) (stepId : Nat) (st : StepStatus) :
    List GenerationStep :=
  prog.map fun step => if step.id = stepId then { step with status := st } else step

/-- The initial progress array mounted by the component. -/
def initialProgress : List GenerationStep :=
  [{ id := 1, label := "Uploading Image", status := StepStatus.pending },
   { id := 2, label := "Generating Music", status := StepStatus.pending },
   { id := 3, label := "Creating Video", status := StepStatus.pending },
   { id := 4, label := "Merging & Finalizing", status := StepStatus.pending }]

/-- The catch handler of handleGenerate: it iterates over the progress array
captured by the closure when handleGenerate was created (snapshot) — not the
live state — and, for every snapshot step whose status is processing, applies
updateStep(step.id, error) to the live state (current). -/
def catchHandlerSteps (snapshot current : List GenerationStep) :
    List GenerationStep :=
  snapshot.foldl
    (fun cur step =>
      if step.status = StepStatus.processing then updateStep cur step.id StepStatus.error
      else cur)
    current

/-- A generate request whose provider responses carry no task ids and no
URLs: the handler completes synchronously. -/
def exGenInp : GenInput :=
  { apiKeyPresent := true, theme := "t",
    imageResult := .ok (.obj []),
    imagePolls := fun _ => .error (),
    lyricsResult := .ok (.obj []),
    musicResult := .ok (.str "m"),
    videoResult := .ok (.obj []),
    now := 0 }

/-- The 200 body exGenInp produces. -/
def exGenBody : GenBody :=
  { status := "completed", taskId := .null, musicUrl := .str "m",
    imageUrl := .null, lyrics := .str (getDefaultLyrics "t") }

/-- A generate request in which the initial image response carries a direct
URL and the video response carries a task_id string. -/
def exGenInp2 : GenInput :=
  { apiKeyPresent := true, theme := "t",
    imageResult := .ok (.obj [("data", .obj [("image_urls", .arr [.str "http://img"])])]),
    imagePolls := fun _ => .error (),
    lyricsResult := .error (),
    musicResult := .ok (.obj [("data", .obj [("audio", .str "http://a")])]),
    videoResult := .ok (.obj [("task_id", .str "T1")]),
    now := 0 }

/-- A generate request whose video response is a truthy object without any
task_id field: the extraction falls back to the whole response object. -/
def exGenInp3 : GenInput :=
  { apiKeyPresent := true, theme := "t",
    imageResult := .ok (.obj [("data", .obj [("image_urls", .arr [.str "http://img"])])]),
    imagePolls := fun _ => .error (),
    lyricsResult := .error (),
    musicResult := .ok (.obj []),
    videoResult := .ok (.obj [("base_resp", .null)]),
    now := 0 }

/-- The mutation the status endpoint applies to a stored task on an
upstream success response v: status becomes success and the videoUrl field
is set to the merge of the extracted video URL with the task music URL. -/
def successTask (t : GenerationTask) (v : JVal) : GenerationTask :=
  { t with
    status := TaskStatus.success,
    videoUrl := some (mergeVideoAndAudio
      (getField (getField v "video") "video_url") t.musicUrl) }

/-- A registered task as created by POST /api/generate. -/
def exTask : GenerationTask :=
  { theme := "t", imageUrl := .null, musicUrl := .str "m",
    lyrics := .str "l", status := TaskStatus.processing, createdAt := 0 }

/-- An upstream video status response reporting success. -/
def upstreamSuccess : Except Unit JVal :=
  .ok (.obj [("status", .str "success"), ("video", .obj [("video_url", .str "http://v")])])

/-- An upstream video status response reporting failure. -/
def upstreamFailed : Except Unit JVal :=
  .ok (.obj [("status", .str "failed")])

/-- An upstream video status response still in the queue. -/
def upstreamQueueing : Except Unit JVal :=
  .ok (.obj [("status", .str "queueing")])

/-- An image status query sequence whose second query reports success. -/
def exPollsSucc : Nat → Except Unit JVal :=
  fun i =>
    if i = 1 then
      .ok (.obj [("status", .str "success"),
                 ("image", .obj [("image_url", .str "http://img1")])])
    else .ok (.obj [("status", .str "queueing")])

/-- An image status query sequence that never reports success. -/
def exPollsNever : Nat → Except Unit JVal :=
  fun _ => .ok (.obj [("status", .str "queueing")])

/-- An initial image_generation response carrying a task id and a direct
image URL. -/
def exImageResp : JVal :=
  .obj [("task_id", .str "IMG1"),
        ("data", .obj [("image_urls", .arr [.str "http://img0"])])]

/-- The registry entry exGenInp3 inserts. -/
def exGenReg3 : Option (JVal × GenerationTask) :=
  some (.obj [("base_resp", .null)],
    { theme := "t", imageUrl := .str "http://img", musicUrl := .obj [],
      lyrics := .str (getDefaultLyrics "t"), status := TaskStatus.processing,
      createdAt := 0 })

/-- The 200 body exGenInp3 produces: a processing status whose task id is
the whole video response object, not a string. -/
def exGenBody3 : GenBody :=
  { status := "processing", taskId := .obj [("base_resp", .null)],
    musicUrl := .obj [], imageUrl := .str "http://img",
    lyrics := .str (getDefaultLyrics "t") }

section Lemmas

/-- Truthiness distributes over the logical-or fallback. -/
theorem truthy_jsOr (a b : JVal) : truthy (jsOr a b) = (truthy a || truthy b) := by
  unfold jsOr
  by_cases h : truthy a = true <;> simp [h]

/-- The status stored after one poll is determined by the branch the
upstream outcome drives. -/
theorem statusStep_status (t : GenerationTask) (u : Except Unit JVal) :
    (statusStep t u).status =
      if upSucc u then TaskStatus.success
      else if upFail u then TaskStatus.failed
      else t.status := by
  cases u with
  | error e => rfl
  | ok sv =>
    by_cases h1 : isNull sv = true
    · simp [statusStep, statusHandler, upSucc, upFail, h1]
    · by_cases h2 : jStrEq (getField sv "status") "success" = true
      · simp [statusStep, statusHandler, upSucc, upFail, h1, h2]
      · by_cases h3 : jStrEq (getField sv "status") "failed" = true
        · simp [statusStep, statusHandler, upSucc, upFail, h1, h2, h3]
        · simp [statusStep, statusHandler, upSucc, upFail, h1, h2, h3]

/-- A truthy string value is a nonempty string. -/
theorem str_ne_of_truthy (s : String) (h : truthy (.str s) = true) : s ≠ "" := by
  simp only [truthy, Bool.not_eq_true'] at h
  intro he
  rw [he] at h
  cases h

/-- Nonempty strings are truthy. -/
theorem truthy_str_of_ne (s : String) (h : s ≠ "") : truthy (.str s) = true := by
  simp only [truthy, Bool.not_eq_true']
  cases he : s.isEmpty
  · rfl
  · exact absurd ((String.isEmpty_iff s).mp he) h

/-- The fallback lyrics template is not the empty string. -/
theorem getDefaultLyrics_ne_empty (theme : String) : getDefaultLyrics theme ≠ "" := by
  unfold getDefaultLyrics
  decide

/-- Every 200 response of POST /api/generate comes from the final response
builder: its components are the core results and its status is computed
from the truthiness of the task id. -/
theorem generateHandler_ok_shape (inp : GenInput)
    (reg : Option (JVal × GenerationTask)) (body : GenBody)
    (h : generateHandler inp = GenResult.ok reg body) :
    generateCore inp = .ok (body.taskId, body.imageUrl, body.musicUrl, body.lyrics)
    ∧ body.status = (if truthy body.taskId then "processing" else "completed")
    ∧ reg = (if truthy body.taskId then
        some (body.taskId,
          { theme := inp.theme, imageUrl := body.imageUrl, musicUrl := body.musicUrl,
            lyrics := body.lyrics, status := TaskStatus.processing,
            createdAt := inp.now : GenerationTask })
      else none) := by
  cases hc : generateCore inp with
  | error msg =>
    rw [generateHandler, hc] at h
    cases h
  | ok tup =>
    obtain ⟨tid, iu, mu, ly⟩ := tup
    have h2 : mkGenOk inp tid iu mu ly = GenResult.ok reg body := by
      rw [generateHandler, hc] at h
      exact h
    rw [mkGenOk] at h2
    injection h2 with h1 hb
    subst hb
    subst h1
    exact ⟨rfl, rfl, rfl⟩

/-- The final response builder never produces a 500. -/
theorem mkGenOk_ne_serverError (inp : GenInput) (t i m l : JVal) (msg : String) :
    mkGenOk inp t i m l ≠ GenResult.serverError msg := by
  unfold mkGenOk
  intro h
  cases h

/-- Replacing the lyrics outcome only replaces the lyrics component of the
core result: the other components and the thrown-or-not shape are
unchanged. -/
theorem generateCore_lyricsResult (inp : GenInput) (r : Except Unit JVal) :
    generateCore { inp with lyricsResult := r }
      = (generateCore inp).map
          fun x => (x.1, x.2.1, x.2.2.1, generateLyricsResult inp.theme r) := by
  by_cases hk : inp.apiKeyPresent = false
  · simp [generateCore, hk, Except.map]
  · cases hi : inp.imageResult with
    | error e => simp [generateCore, hk, hi, Except.map]
    | ok iv =>
      cases hm : inp.musicResult with
      | error e => simp [generateCore, hk, hi, hm, Except.map]
      | ok mv =>
        by_cases ht : truthy (computeImageUrl inp.imagePolls iv) = true
        · cases hv : inp.videoResult with
          | error e => simp [generateCore, hk, hi, hm, ht, hv, Except.map]
          | ok vv => simp [generateCore, hk, hi, hm, ht, hv, Except.map]
        · simp [generateCore, hk, hi, hm, ht, Except.map]

/-- The polling loop never issues more queries than it has fuel. -/
theorem imagePollAux_count_le (polls : Nat → Except Unit JVal) :
    ∀ fuel i, (imagePollAux polls i fuel).2 ≤ fuel := by
  intro fuel
  induction fuel with
  | zero => intro i; exact Nat.le_refl 0
  | succ n ih =>
    intro i
    cases hp : polls i with
    | error e =>
      simp only [imagePollAux, hp]
      exact Nat.succ_le_succ (ih (i + 1))
    | ok v =>
      by_cases hs : jStrEq (getField v "status") "success" = true
      · simp only [imagePollAux, hp, hs, if_true]
        exact Nat.succ_le_succ (Nat.zero_le n)
      · simp only [imagePollAux, hp, hs, Bool.false_eq_true, if_false]
        exact Nat.succ_le_succ (ih (i + 1))

/-- When the first success report is query i + k within the fuel budget, the
loop issues exactly k + 1 queries and returns the URL from that report. -/
theorem imagePollAux_stop (polls : Nat → Except Unit JVal) :
    ∀ k fuel i v, k < fuel →
    (∀ j, j < k → pollReportsSuccess polls (i + j) = false) →
    polls (i + k) = .ok v →
    jStrEq (getField v "status") "success" = true →
    imagePollAux polls i fuel = (pollSuccessUrl v, k + 1) := by
  intro k
  induction k with
  | zero =>
    intro fuel i v hk hpre hp hs
    cases fuel with
    | zero => exact absurd hk (by omega)
    | succ n =>
      rw [Nat.add_zero] at hp
      simp only [imagePollAux, hp, hs, if_true]
  | succ m ih =>
    intro fuel i v hk hpre hp hs
    cases fuel with
    | zero => exact absurd hk (by omega)
    | succ n =>
      have h0 : pollReportsSuccess polls i = false := by
        have h0 := hpre 0 (by omega)
        rwa [Nat.add_zero] at h0
      have hpre2 : ∀ j, j < m → pollReportsSuccess polls (i + 1 + j) = false := by
        intro j hj
        have hj2 := hpre (j + 1) (by omega)
        have heq : i + (j + 1) = i + 1 + j := by omega
        rwa [heq] at hj2
      have hp2 : polls (i + 1 + m) = .ok v := by
        have heq : i + (m + 1) = i + 1 + m := by omega
        rwa [heq] at hp
      have hrec := ih n (i + 1) v (by omega) hpre2 hp2 hs
      cases hp0 : polls i with
      | error e =>
        simp only [imagePollAux, hp0, hrec]
      | ok v0 =>
        have hs0 : jStrEq (getField v0 "status") "success" = false := by
          rw [pollReportsSuccess, hp0] at h0
          exact h0
        simp only [imagePollAux, hp0, hs0, Bool.false_eq_true, if_false, hrec]

/-- When no query within the fuel budget reports success, the loop leaves
the URL null. -/
theorem imagePollAux_nosucc (polls : Nat → Except Unit JVal) :
    ∀ fuel i, (∀ j, j < fuel → pollReportsSuccess polls (i + j) = false) →
    (imagePollAux polls i fuel).1 = JVal.null := by
  intro fuel
  induction fuel with
  | zero => intro i h; rfl
  | succ n ih =>
    intro i h
    have h0 : pollReportsSuccess polls i = false := by
      have h1 := h 0 (by omega)
      rwa [Nat.add_zero] at h1
    have hrest : ∀ j, j < n → pollReportsSuccess polls (i + 1 + j) = false := by
      intro j hj
      have hj2 := h (j + 1) (by omega)
      have heq : i + (j + 1) = i + 1 + j := by omega
      rwa [heq] at hj2
    cases hp0 : polls i with
    | error e =>
      simp only [imagePollAux, hp0]
      exact ih (i + 1) hrest
    | ok v0 =>
      have hs0 : jStrEq (getField v0 "status") "success" = false := by
        rw [pollReportsSuccess, hp0] at h0
        exact h0
      simp only [imagePollAux, hp0, hs0, Bool.false_eq_true, if_false]
      exact ih (i + 1) hrest

/-- The n-th entry of the query timestamp list. -/
theorem queryTimes_getD (n i : Nat) (h : i < n) :
    (queryTimes n).getD i 0 = 2000 * (i + 1) := by
  rw [queryTimes, List.getD_eq_getElem?_getD, List.getElem?_map, List.getElem?_range h]
  rfl

/-- When the core succeeds with a truthy image URL, the task id component is
extracted from the video_generation response. -/
theorem generateCore_video_taskId (inp : GenInput) (tid iu mu ly vv : JVal)
    (hv : inp.videoResult = Except.ok vv)
    (hc : generateCore inp = .ok (tid, iu, mu, ly))
    (hiu : truthy iu = true) :
    tid = extractVideoTaskId vv := by
  unfold generateCore at hc
  split at hc
  · cases hc
  · split at hc
    · cases hc
    · split at hc
      · cases hc
      · split at hc
        · split at hc
          · cases hc
          · rename_i vv2 hveq
            rw [hv] at hveq
            injection hveq with hvv
            subst hvv
            injection hc with hc2
            injection hc2 with h1 hrest
            exact h1.symm
        · rename_i ht
          injection hc with hc2
          injection hc2 with h1 hrest
          injection hrest with h2 hrest2
          rw [h2] at ht
          exact absurd hiu ht

end Lemmas

/-- C1: on every 200 response of POST /api/generate the status field is
processing exactly when the obtained task id is truthy (and then the taskId
field of the body carries it) and completed exactly when it is not; a
processing status with an absent task id is impossible. -/
theorem generate_status_iff (inp : GenInput)
    (reg : Option (JVal × GenerationTask)) (body : GenBody)
    (h : generateHandler inp = GenResult.ok reg body) :
    (body.status = "processing" ↔ truthy body.taskId = true)
    ∧ (body.status = "completed" ↔ truthy body.taskId = false) := by
  obtain ⟨-, hstat, -⟩ := generateHandler_ok_shape inp reg body h
  by_cases ht : truthy body.taskId = true
  · rw [if_pos ht] at hstat
    refine ⟨⟨fun _ => ht, fun _ => hstat⟩, ⟨fun hcomp => ?_, fun hfalse => ?_⟩⟩
    · rw [hstat] at hcomp
      exact absurd hcomp (by decide)
    · rw [hfalse] at ht
      cases ht
  · rw [if_neg ht] at hstat
    have ht2 : truthy body.taskId = false := by
      cases hb : truthy body.taskId
      · rfl
      · exact absurd hb ht
    refine ⟨⟨fun hproc => ?_, fun htt => ?_⟩, ⟨fun _ => ht2, fun _ => hstat⟩⟩
    · rw [hstat] at hproc
      exact absurd hproc (by decide)
    · exact absurd htt ht

/-- Witness for the C1 theorem at a request that completes synchronously. -/
theorem generate_status_iff_witness :
    (exGenBody.status = "processing" ↔ truthy exGenBody.taskId = true)
    ∧ (exGenBody.status = "completed" ↔ truthy exGenBody.taskId = false) :=
  generate_status_iff exGenInp none exGenBody (by rfl)

/-- C3: replacing the lyrics call outcome by a thrown error leaves the
generate endpoint failing exactly when it failed before, with the same
message, and every 200 body produced under the failed lyrics call carries
the fixed fallback lyrics text. -/
theorem generate_lyrics_failure_fallback (inp : GenInput) :
    (∀ msg, generateHandler { inp with lyricsResult := Except.error () }
        = GenResult.serverError msg
      ↔ generateHandler inp = GenResult.serverError msg)
    ∧ (∀ reg body,
        generateHandler { inp with lyricsResult := Except.error () }
          = GenResult.ok reg body →
        body.lyrics = .str (getDefaultLyrics inp.theme)) := by
  have hmap := generateCore_lyricsResult inp (Except.error ())
  cases hc : generateCore inp with
  | error msg0 =>
    rw [hc] at hmap
    simp only [Except.map] at hmap
    constructor
    · intro msg
      rw [generateHandler, generateHandler, hmap, hc]
    · intro reg body habs
      rw [generateHandler, hmap] at habs
      cases habs
  | ok tup =>
    obtain ⟨tid, iu, mu, ly⟩ := tup
    rw [hc] at hmap
    simp only [Except.map] at hmap
    constructor
    · intro msg
      constructor
      · intro habs
        rw [generateHandler, hmap] at habs
        exact absurd habs (mkGenOk_ne_serverError _ _ _ _ _ _)
      · intro habs
        rw [generateHandler, hc] at habs
        exact absurd habs (mkGenOk_ne_serverError _ _ _ _ _ _)
    · intro reg body hok
      have h2 : mkGenOk { inp with lyricsResult := Except.error () } tid iu mu
          (generateLyricsResult inp.theme (Except.error ()))
            = GenResult.ok reg body := by
        rw [generateHandler, hmap] at hok
        exact hok
      rw [mkGenOk] at h2
      injection h2 with h1 hb
      rw [← hb]
      rfl

/-- Witness for the C3 theorem: with the lyrics call failing, the concrete
request still succeeds and its body carries the fallback lyrics. -/
theorem generate_lyrics_failure_fallback_witness :
    exGenBody.lyrics = JVal.str (getDefaultLyrics "t") :=
  (generate_lyrics_failure_fallback exGenInp).2 none exGenBody (by rfl)

/-- C10: generateLyrics never returns an empty or null value: its result is
always truthy, any string it returns is nonempty, and it is either the
fixed fallback template (thrown call, null response, missing or falsy
lyrics field) or the truthy lyrics field of the response. -/
theorem lyrics_never_empty (theme : String) (r : Except Unit JVal) :
    truthy (generateLyricsResult theme r) = true
    ∧ (∀ s, generateLyricsResult theme r = .str s → s ≠ "")
    ∧ (generateLyricsResult theme r = .str (getDefaultLyrics theme)
       ∨ (∃ v, r = .ok v ∧ generateLyricsResult theme r = getField v "lyrics"
           ∧ truthy (getField v "lyrics") = true)) := by
  have hdef : truthy (JVal.str (getDefaultLyrics theme)) = true :=
    truthy_str_of_ne _ (getDefaultLyrics_ne_empty theme)
  have hdefs : ∀ s, JVal.str (getDefaultLyrics theme) = JVal.str s → s ≠ "" := by
    intro s hs
    injection hs with hs2
    rw [← hs2]
    exact getDefaultLyrics_ne_empty theme
  cases r with
  | error e =>
    exact ⟨hdef, hdefs, Or.inl rfl⟩
  | ok v =>
    have hunf : generateLyricsResult theme (Except.ok v)
        = if isNull v = true then JVal.str (getDefaultLyrics theme)
          else jsOr (getField v "lyrics") (JVal.str (getDefaultLyrics theme)) := rfl
    have hunf2 : jsOr (getField v "lyrics") (JVal.str (getDefaultLyrics theme))
        = if truthy (getField v "lyrics") = true then getField v "lyrics"
          else JVal.str (getDefaultLyrics theme) := rfl
    by_cases hn : isNull v = true
    · rw [hunf, if_pos hn]
      exact ⟨hdef, hdefs, Or.inl rfl⟩
    · by_cases hl : truthy (getField v "lyrics") = true
      · rw [hunf, if_neg hn, hunf2, if_pos hl]
        refine ⟨hl, fun s hs => ?_, Or.inr ⟨v, rfl, rfl, hl⟩⟩
        rw [hs] at hl
        exact str_ne_of_truthy s hl
      · rw [hunf, if_neg hn, hunf2, if_neg hl]
        exact ⟨hdef, hdefs, Or.inl rfl⟩

/-- Witness for the C10 theorem at a thrown lyrics call. -/
theorem lyrics_never_empty_witness :
    truthy (generateLyricsResult "t" (Except.error ())) = true :=
  (lyrics_never_empty "t" (Except.error ())).1

/-- C6: polling a task id that was never registered returns 404 with an
error payload and never queries the upstream provider (the third component
of the handler result records whether an upstream query was issued). -/
theorem status_unregistered_404 (u : Except Unit JVal) :
    statusHandler none u = (none, StatusResponse.notFound "Task not found", false) :=
  rfl

/-- C7: when GET /api/status/:taskId answers with status processing, the
stored task record is returned unchanged — the poll mutates no field. -/
theorem status_processing_frame (t : GenerationTask) (u : Except Unit JVal)
    (h : (statusHandler (some t) u).2.1 = StatusResponse.okProcessing) :
    (statusHandler (some t) u).1 = some t := by
  cases u with
  | error e => simp [statusHandler] at h
  | ok sv =>
    by_cases h1 : isNull sv = true
    · simp [statusHandler, h1] at h
    · by_cases h2 : jStrEq (getField sv "status") "success" = true
      · simp [statusHandler, h1, h2] at h
      · by_cases h3 : jStrEq (getField sv "status") "failed" = true
        · simp [statusHandler, h1, h2, h3] at h
        · simp [statusHandler, h1, h2, h3]

/-- Witness for the C7 theorem at a queueing upstream response. -/
theorem status_processing_frame_witness :
    (statusHandler (some exTask) upstreamQueueing).1 = some exTask :=
  status_processing_frame exTask upstreamQueueing (by rfl)

/-- C5: on an upstream success report the status endpoint stores status
success and the resolved video URL (the merge step is the identity on the
video URL), responds with that URL, and a repeated poll with the same
upstream result returns the same URL and leaves the stored task in exactly
the same state. -/
theorem status_success_idempotent (t : GenerationTask) (v : JVal)
    (hnn : isNull v = false)
    (hs : jStrEq (getField v "status") "success" = true) :
    statusHandler (some t) (.ok v)
      = (some (successTask t v),
         .okSuccess (mergeVideoAndAudio
           (getField (getField v "video") "video_url") t.musicUrl), true)
    ∧ statusHandler (some (successTask t v)) (.ok v)
      = (some (successTask t v),
         .okSuccess (mergeVideoAndAudio
           (getField (getField v "video") "video_url") t.musicUrl), true) := by
  constructor <;> simp [statusHandler, successTask, mergeVideoAndAudio, hnn, hs]

/-- Witness for the C5 theorem at a concrete task and success response. -/
theorem status_success_idempotent_witness :
    statusHandler (some exTask) upstreamSuccess
      = (some (successTask exTask
          (.obj [("status", .str "success"), ("video", .obj [("video_url", .str "http://v")])])),
         .okSuccess (.str "http://v"), true)
    ∧ statusHandler
        (some (successTask exTask
          (.obj [("status", .str "success"), ("video", .obj [("video_url", .str "http://v")])])))
        upstreamSuccess
      = (some (successTask exTask
          (.obj [("status", .str "success"), ("video", .obj [("video_url", .str "http://v")])])),
         .okSuccess (.str "http://v"), true) :=
  status_success_idempotent exTask
    (.obj [("status", .str "success"), ("video", .obj [("video_url", .str "http://v")])])
    (by rfl) (by rfl)

/-- C2 counterexample: a stored task whose status is success is driven back
to failed by a later poll whose upstream outcome reports failed, so the
claimed invariant fails over unconstrained upstream response sequences. -/
theorem status_success_to_failed_counterexample :
    (statusStep exTask upstreamSuccess).status = TaskStatus.success
    ∧ (statusStep (statusStep exTask upstreamSuccess) upstreamFailed).status
        = TaskStatus.failed := by
  exact ⟨rfl, rfl⟩

/-- C2 (amended): provided the upstream status reports are terminally
consistent — no failed report after a success report and no success report
after a failed report — and the starting terminal status, if any, agrees
with the remaining reports, every adjacent pair of stored statuses along a
poll sequence either is unchanged or leaves processing; in particular the
status never moves success to failed, failed to success, or a terminal
status back to processing. -/
theorem status_transitions_monotone (t : GenerationTask)
    (ups : List (Except Unit JVal))
    (hcons : upConsistent ups = true)
    (hs : t.status = TaskStatus.success → ∀ v ∈ ups, upFail v = false)
    (hf : t.status = TaskStatus.failed → ∀ v ∈ ups, upSucc v = false) :
    List.Chain' okTrans (t.status :: statusTrace t ups) := by
  induction ups generalizing t with
  | nil => simp [statusTrace]
  | cons u rest ih =>
    rw [upConsistent] at hcons
    simp only [Bool.and_eq_true, Bool.or_eq_true, Bool.not_eq_true',
      List.all_eq_true] at hcons
    obtain ⟨⟨hc1, hc2⟩, hcrest⟩ := hcons
    have hst := statusStep_status t u
    have hchain : statusTrace t (u :: rest)
        = (statusStep t u).status :: statusTrace (statusStep t u) rest := rfl
    rw [hchain, List.chain'_cons]
    refine ⟨?_, ?_⟩
    · intro hne
      rw [hst] at hne
      by_cases hsu : upSucc u = true
      · simp only [hsu, if_true] at hne
        cases hts : t.status with
        | processing => rfl
        | success => rw [hts] at hne; exact absurd rfl hne
        | failed =>
          have hbad := hf hts u (List.mem_cons_self u rest)
          rw [hsu] at hbad; cases hbad
      · by_cases hfu : upFail u = true
        · simp only [hsu, hfu, if_false, if_true, Bool.false_eq_true] at hne
          cases hts : t.status with
          | processing => rfl
          | failed => rw [hts] at hne; exact absurd rfl hne
          | success =>
            have hbad := hs hts u (List.mem_cons_self u rest)
            rw [hfu] at hbad; cases hbad
        · simp only [hsu, hfu, if_false, Bool.false_eq_true] at hne
          exact absurd rfl hne
    · refine ih (statusStep t u) hcrest ?_ ?_
      · intro h2 v hv
        rw [hst] at h2
        by_cases hsu : upSucc u = true
        · rcases hc1 with hcl | hcr
          · rw [hsu] at hcl; cases hcl
          · exact hcr v hv
        · by_cases hfu : upFail u = true
          · simp only [hsu, hfu, if_false, if_true, Bool.false_eq_true] at h2
            cases h2
          · simp only [hsu, hfu, if_false, Bool.false_eq_true] at h2
            exact hs h2 v (List.mem_cons_of_mem u hv)
      · intro h2 v hv
        rw [hst] at h2
        by_cases hsu : upSucc u = true
        · simp only [hsu, if_true] at h2
          cases h2
        · by_cases hfu : upFail u = true
          · rcases hc2 with hcl | hcr
            · rw [hfu] at hcl; cases hcl
            · exact hcr v hv
          · simp only [hsu, hfu, if_false, Bool.false_eq_true] at h2
            exact hf h2 v (List.mem_cons_of_mem u hv)

/-- Witness for the amended C2 theorem along a queueing then success poll
sequence starting from a freshly registered processing task. -/
theorem status_transitions_monotone_witness :
    List.Chain' okTrans
      (exTask.status :: statusTrace exTask [upstreamQueueing, upstreamSuccess]) :=
  status_transitions_monotone exTask [upstreamQueueing, upstreamSuccess]
    (by rfl)
    (by intro h; cases h)
    (by intro h; cases h)

/-- C4: the image polling loop inside POST /api/generate issues at most 5
status queries; consecutive query timestamps lie at least 2000 ms apart
(each query follows a fixed 2 second delay); the loop stops at the first
query that reports success, taking the URL extracted from that response;
and when the initial response carried a task id but none of the 5 queries
reports success, the computed image URL falls back to the URLs present in
the initial image_generation response. -/
theorem image_poll_bounded_fallback (polls : Nat → Except Unit JVal) (iv : JVal) :
    (imagePoll polls).2 ≤ 5
    ∧ (∀ i, i + 1 < (imagePoll polls).2 →
        (queryTimes (imagePoll polls).2).getD i 0 + 2000
          ≤ (queryTimes (imagePoll polls).2).getD (i + 1) 0)
    ∧ (∀ k v, k < 5 → (∀ j, j < k → pollReportsSuccess polls j = false) →
        polls k = .ok v → jStrEq (getField v "status") "success" = true →
        imagePoll polls = (pollSuccessUrl v, k + 1))
    ∧ ((∀ j, j < 5 → pollReportsSuccess polls j = false) →
        truthy (imageTaskIdOf iv) = true →
        (imagePoll polls).1 = JVal.null
        ∧ computeImageUrl polls iv = initialImageUrl iv) := by
  have hcount : (imagePoll polls).2 ≤ 5 := imagePollAux_count_le polls 5 0
  refine ⟨hcount, ?_, ?_, ?_⟩
  · intro i hi
    have h1 : i < (imagePoll polls).2 := by omega
    rw [queryTimes_getD _ i h1, queryTimes_getD _ (i + 1) hi]
    omega
  · intro k v hk hpre hp hs
    have hpre2 : ∀ j, j < k → pollReportsSuccess polls (0 + j) = false := by
      intro j hj
      rw [Nat.zero_add]
      exact hpre j hj
    have hp2 : polls (0 + k) = .ok v := by
      rw [Nat.zero_add]
      exact hp
    exact imagePollAux_stop polls k 5 0 v hk hpre2 hp2 hs
  · intro hns ht
    have hnull : (imagePoll polls).1 = JVal.null := by
      refine imagePollAux_nosucc polls 5 0 ?_
      intro j hj
      rw [Nat.zero_add]
      exact hns j hj
    refine ⟨hnull, ?_⟩
    have hcompute : computeImageUrl polls iv
        = if truthy (if truthy (imageTaskIdOf iv) = true
              then (imagePoll polls).1 else JVal.null) = true
          then (if truthy (imageTaskIdOf iv) = true
              then (imagePoll polls).1 else JVal.null)
          else initialImageUrl iv := rfl
    rw [hcompute, if_pos ht, hnull]
    rfl

/-- Witness for the C4 theorem: the loop stops at the second query when it
reports success, and with no success at all the handler falls back to the
initial response URL. -/
theorem image_poll_bounded_fallback_witness :
    imagePoll exPollsSucc
      = (JVal.str "http://img1", 2)
    ∧ computeImageUrl exPollsNever exImageResp = initialImageUrl exImageResp := by
  constructor
  · have h := (image_poll_bounded_fallback exPollsSucc JVal.null).2.2.1
    have h2 := h 1
      (.obj [("status", .str "success"),
             ("image", .obj [("image_url", .str "http://img1")])])
      (by omega)
      (by
        intro j hj
        have hj0 : j = 0 := by omega
        rw [hj0]
        rfl)
      rfl rfl
    exact h2
  · have h := (image_poll_bounded_fallback exPollsNever exImageResp).2.2.2
    exact (h (fun j hj => rfl) rfl).2

/-- C9: when the video_generation call returns any truthy response value,
the extracted task id is truthy, because extraction falls back to the whole
response object; hence every 200 body with a truthy image URL has a truthy
task id and status processing, a completed status entails that no image URL
was obtained, and the task id placed in the body need not be a string: it
can be the whole response object. -/
theorem video_taskid_truthy (inp : GenInput) (vv : JVal)
    (hv : inp.videoResult = Except.ok vv) (hvt : truthy vv = true) :
    (∀ reg body, generateHandler inp = GenResult.ok reg body →
       (truthy body.imageUrl = true →
          truthy body.taskId = true ∧ body.status = "processing")
       ∧ (body.status = "completed" → truthy body.imageUrl = false))
    ∧ (generateHandler exGenInp3 = GenResult.ok exGenReg3 exGenBody3
       ∧ exGenBody3.status = "processing"
       ∧ exGenBody3.taskId = JVal.obj [("base_resp", JVal.null)]) := by
  constructor
  · intro reg body h
    obtain ⟨hc, hstat, -⟩ := generateHandler_ok_shape inp reg body h
    have hmain : truthy body.imageUrl = true →
        truthy body.taskId = true ∧ body.status = "processing" := by
      intro hiu
      have htid : body.taskId = extractVideoTaskId vv :=
        generateCore_video_taskId inp body.taskId body.imageUrl body.musicUrl
          body.lyrics vv hv hc hiu
      have htt : truthy body.taskId = true := by
        rw [htid, extractVideoTaskId, truthy_jsOr, truthy_jsOr, hvt]
        simp
      refine ⟨htt, ?_⟩
      rw [hstat, if_pos htt]
    refine ⟨hmain, ?_⟩
    intro hcomp
    cases hbi : truthy body.imageUrl with
    | false => rfl
    | true =>
      have hproc := (hmain hbi).2
      rw [hproc] at hcomp
      exact absurd hcomp (by decide)
  · exact ⟨rfl, rfl, rfl⟩

/-- Witness for the C9 theorem at the concrete request whose video response
is an object without a task_id field. -/
theorem video_taskid_truthy_witness :
    truthy exGenBody3.taskId = true ∧ exGenBody3.status = "processing" :=
  ((video_taskid_truthy exGenInp3 (JVal.obj [("base_resp", JVal.null)])
      rfl rfl).1 exGenReg3 exGenBody3 (by rfl)).1 (by rfl)

/-- C8 (code bug): the client catch handler iterates over the progress
array captured by the closure when handleGenerate started — a stale
snapshot in which every step is still pending — so after step 1 was set to
processing and an error is thrown, the handler changes nothing and the
final state still contains a step whose status is processing, instead of
transitioning it to error as the specification requires. -/
theorem catch_handler_stale_snapshot :
    catchHandlerSteps initialProgress
        (updateStep initialProgress 1 StepStatus.processing)
      = updateStep initialProgress 1 StepStatus.processing
    ∧ ∃ step ∈ catchHandlerSteps initialProgress
          (updateStep initialProgress 1 StepStatus.processing),
        step.status = StepStatus.processing := by
  refine ⟨rfl, ?_⟩
  refine ⟨{ id := 1, label := "Uploading Image", status := StepStatus.processing },
    ?_, rfl⟩
  decide

end AnimeOpener
